import Mathlib

/-!
Verification of the BTC short-straddle monitor core (`app.py`).

The embedding models the premium-extraction, history-cap and trend/risk
classification logic of the dashboard.  Python floats are modelled as exact
rationals (ℚ); a Python `ZeroDivisionError` raised by an unguarded division is
modelled by the `Except` error monad (`PyErr.zeroDivision`).  Fields read with
`dict.get(key, 0)` are modelled as `Option` fields read with `Option.getD 0`.
-/

/-- Fault raised by an unguarded division: Python's `ZeroDivisionError`. -/
inductive PyErr where
  | zeroDivision
deriving DecidableEq

/-- One market quote of the option chain, as consumed by `app.py`.  The code
reads `strike_price`, `mark_price` and `spot_price` with `.get(key, 0)`
(a missing field defaults to `0`) and `symbol` with `.get('symbol','')`. -/
structure OptionQuote where
  strike_price : Option ℚ
  symbol : String
  mark_price : Option ℚ
  spot_price : Option ℚ
deriving DecidableEq

/-- Python's `str.startswith`, on the character sequences of the strings. -/
def startswith (s pre : String) : Bool :=
  pre.toList.isPrefixOf s.toList

/-- Constant `STRIKE_1 = 75000` of `app.py`. -/
def STRIKE_1 : ℚ := 75000

/-- Constant `STRIKE_2 = 80000` of `app.py`. -/
def STRIKE_2 : ℚ := 80000

/-- `get_option_price` of `app.py`: first quote matching the strike exactly
and whose symbol starts with the option-type prefix; its `mark_price`
(defaulting to `0` if the field is absent); `None` when the chain is empty
or no quote matches. -/
def get_option_price (option_chain : List OptionQuote) (strike : ℚ)
    (option_type : String) : Option ℚ :=
  if option_chain.isEmpty then none
  else
    match option_chain.find? (fun o =>
        decide (o.strike_price.getD 0 = strike) && startswith o.symbol option_type) with
    | some o => some (o.mark_price.getD 0)
    | none => none

/-- `get_spot_price` of `app.py`: the `spot_price` field of the first quote
(defaulting to `0` when absent), `None` on an empty chain. -/
def get_spot_price (option_chain : List OptionQuote) : Option ℚ :=
  match option_chain with
  | [] => none
  | o :: _ => some (o.spot_price.getD 0)

/-- The record returned by `calculate_straddle_premiums`. -/
structure StraddlePremium where
  straddle_a : ℚ
  straddle_b : ℚ
  combined : ℚ
  spot : Option ℚ
  call_1 : ℚ
  put_1 : ℚ
  call_2 : ℚ
  put_2 : ℚ
deriving DecidableEq

/-- `calculate_straddle_premiums` of `app.py`: looks up the four legs; if any
is `None` the whole computation returns `None`, otherwise it returns the
record with `straddle_a = call_1 + put_1`, `straddle_b = call_2 + put_2`
and `combined = straddle_a + straddle_b`. -/
def calculate_straddle_premiums (option_chain : List OptionQuote)
    (strike_1 strike_2 : ℚ) : Option StraddlePremium :=
  match get_option_price option_chain strike_1 "C",
        get_option_price option_chain strike_1 "P",
        get_option_price option_chain strike_2 "C",
        get_option_price option_chain strike_2 "P" with
  | some call_1, some put_1, some call_2, some put_2 =>
    some { straddle_a := call_1 + put_1
           straddle_b := call_2 + put_2
           combined := (call_1 + put_1) + (call_2 + put_2)
           spot := get_spot_price option_chain
           call_1 := call_1
           put_1 := put_1
           call_2 := call_2
           put_2 := put_2 }
  | _, _, _, _ => none

/-- One element of `st.session_state.premium_history` as appended in `main`. -/
structure HistoryEntry where
  timestamp : ℕ
  combined : ℚ
  straddle_a : ℚ
  straddle_b : ℚ
  spot : Option ℚ
deriving DecidableEq

/-- Python list slicing `l[-n:]`: the last `n` elements — except that
`l[-0:]` is `l[0:]`, the whole list. -/
def sliceLast (l : List α) (n : ℕ) : List α :=
  if n = 0 then l else l.drop (l.length - n)

/-- Python's `min` builtin on a list of rationals.  `min([])` raises in
Python; every call site guards non-emptiness, so the `[]` value is arbitrary. -/
def pyMin : List ℚ → ℚ
  | [] => 0
  | x :: xs => xs.foldl min x

/-- Python's `max` builtin on a list of rationals (same conventions). -/
def pyMax : List ℚ → ℚ
  | [] => 0
  | x :: xs => xs.foldl max x

/-- `determine_trend` of `app.py`.  The two `.error .zeroDivision` branches
are exactly the places where the Python code divides by zero and raises:
`sum(recent[:len//2]) / (len//2)` with `len//2 == 0`, and
`(second_half_avg - first_half_avg) / first_half_avg` with
`first_half_avg == 0`. -/
def determine_trend (history : List HistoryEntry) (window : ℕ) :
    Except PyErr String :=
  if history.length < window then .ok "Insufficient Data"
  else
    let recent := (sliceLast history window).map (fun h => h.combined)
    if recent.length / 2 = 0 then .error .zeroDivision
    else
      let first_half_avg := (recent.take (recent.length / 2)).sum /
        ((recent.length / 2 : ℕ) : ℚ)
      let second_half_avg := (recent.drop (recent.length / 2)).sum /
        ((recent.length - recent.length / 2 : ℕ) : ℚ)
      if first_half_avg = 0 then .error .zeroDivision
      else
        let change_pct := ((second_half_avg - first_half_avg) / first_half_avg) * 100
        if 1 < change_pct then .ok "Rising ⬆️"
        else if change_pct < -1 then .ok "Falling ⬇️"
        else .ok "Flat ➡️"

/-- `determine_risk_status` of `app.py`.  The two `.error .zeroDivision`
branches are the unguarded divisions `(max - min) / avg` with `avg == 0`
and `(current - premiums[-10]) / premiums[-10]` with `premiums[-10] == 0`. -/
def determine_risk_status (history : List HistoryEntry) (current_premium : ℚ) :
    Except PyErr (String × String × String) :=
  if history.length < 10 then .ok ("Neutral", "⚪", "Collecting initial data...")
  else
    let premiums := history.map (fun h => h.combined)
    let avg_premium := premiums.sum / (premiums.length : ℚ)
    let min_premium := pyMin premiums
    let max_premium := pyMax premiums
    if avg_premium = 0 then .error .zeroDivision
    else
      let volatility := ((max_premium - min_premium) / avg_premium) * 100
      let p10 := premiums.getD (premiums.length - 10) 0
      if p10 = 0 then .error .zeroDivision
      else
        let recent_change_pct := ((current_premium - p10) / p10) * 100
        if recent_change_pct < -5 then
          .ok ("Safe", "🟢", "Premium compressing - Theta decay working well")
        else if 10 < recent_change_pct then
          .ok ("Risky", "🔴", "Premium expanding - Volatility risk increasing")
        else if 15 < volatility then
          .ok ("Risky", "🔴", "High premium volatility detected")
        else if 5 < recent_change_pct then
          .ok ("Neutral", "🟡", "Slight premium expansion - Monitor closely")
        else
          .ok ("Safe", "🟢", "Premium stable - Position behaving as expected")

/-- The history update of `main` (`app.py` lines 198–208): append the new
entry, then `if len(...) > 500: ... = ...[-500:]`. -/
def appendCapped (history : List HistoryEntry) (e : HistoryEntry) :
    List HistoryEntry :=
  let h := history ++ [e]
  if 500 < h.length then sliceLast h 500 else h

/-- One polling cycle of `main` (`app.py` lines 190–208), restricted to its
effect on the history: an empty (falsy) chain or a failed extraction leaves
the history untouched; a successful extraction appends the entry built from
the premium record, with the 500-entry cap applied. -/
def mainCycle (history : List HistoryEntry) (option_chain : List OptionQuote)
    (ts : ℕ) : List HistoryEntry :=
  if option_chain.isEmpty then history
  else
    match calculate_straddle_premiums option_chain STRIKE_1 STRIKE_2 with
    | none => history
    | some p =>
      appendCapped history
        { timestamp := ts
          combined := p.combined
          straddle_a := p.straddle_a
          straddle_b := p.straddle_b
          spot := p.spot }

/-- Average of a list of rationals, as the spec words it (`avg(xs)`). -/
def specAvg (l : List ℚ) : ℚ := l.sum / (l.length : ℚ)

/-- C1: whenever all four legs are found and `calculate_straddle_premiums`
returns a record, `combined = straddle_a + straddle_b`,
`straddle_a = call_1 + put_1` and `straddle_b = call_2 + put_2`, exactly. -/
theorem straddle_premium_decomposition (chain : List OptionQuote)
    (s1 s2 : ℚ) (p : StraddlePremium)
    (h : calculate_straddle_premiums chain s1 s2 = some p) :
    p.combined = p.straddle_a + p.straddle_b ∧
    p.straddle_a = p.call_1 + p.put_1 ∧
    p.straddle_b = p.call_2 + p.put_2 := by
  unfold calculate_straddle_premiums at h
  split at h
  · cases h
    simp
  · cases h

/-- A concrete four-leg snapshot used to instantiate hypothesis-bearing
theorems: both strikes present with distinct call/put prices. -/
def sampleChain : List OptionQuote :=
  [ { strike_price := some 75000, symbol := "C-BTC-75000-101025",
      mark_price := some 1200, spot_price := some 77000 },
    { strike_price := some 75000, symbol := "P-BTC-75000-101025",
      mark_price := some 800, spot_price := some 77000 },
    { strike_price := some 80000, symbol := "C-BTC-80000-101025",
      mark_price := some 300, spot_price := some 77000 },
    { strike_price := some 80000, symbol := "P-BTC-80000-101025",
      mark_price := some 2500, spot_price := some 77000 } ]

theorem straddle_premium_decomposition_witness :
    ∃ p, calculate_straddle_premiums sampleChain STRIKE_1 STRIKE_2 = some p ∧
      p.combined = p.straddle_a + p.straddle_b ∧
      p.straddle_a = p.call_1 + p.put_1 ∧
      p.straddle_b = p.call_2 + p.put_2 := by
  have hc1 : startswith "C-BTC-75000-101025" "C" = true := by decide
  have hp1 : startswith "C-BTC-75000-101025" "P" = false := by decide
  have hc2 : startswith "P-BTC-75000-101025" "P" = true := by decide
  have hc3 : startswith "C-BTC-80000-101025" "C" = true := by decide
  have hp3 : startswith "C-BTC-80000-101025" "P" = false := by decide
  have hc4 : startswith "P-BTC-80000-101025" "P" = true := by decide
  have h : calculate_straddle_premiums sampleChain STRIKE_1 STRIKE_2 =
      some { straddle_a := 2000, straddle_b := 2800, combined := 4800,
             spot := some 77000, call_1 := 1200, put_1 := 800,
             call_2 := 300, put_2 := 2500 } := by
    norm_num [calculate_straddle_premiums, get_option_price, get_spot_price,
      sampleChain, STRIKE_1, STRIKE_2, List.find?, hc1, hp1, hc2, hc3, hp3, hc4]
  exact ⟨_, h, straddle_premium_decomposition sampleChain STRIKE_1 STRIKE_2 _ h⟩

/-- For a positive count, Python's `l[-n:]` is dropping all but the last
`n` elements. -/
theorem sliceLast_eq_drop (l : List α) (n : ℕ) (h : n ≠ 0) :
    sliceLast l n = l.drop (l.length - n) := by
  simp [sliceLast, h]

/-- One capped append, starting from the last-500 suffix of the entries
appended so far, yields the last-500 suffix of the extended sequence. -/
theorem appendCapped_drop (es : List HistoryEntry) (e : HistoryEntry) :
    appendCapped (es.drop (es.length - 500)) e =
      (es ++ [e]).drop (es.length + 1 - 500) := by
  have hlen : (es.drop (es.length - 500)).length = es.length - (es.length - 500) :=
    List.length_drop _ _
  unfold appendCapped
  by_cases h : 500 < es.length
  · have h500 : (es.drop (es.length - 500)).length = 500 := by omega
    have hgt : 500 < (es.drop (es.length - 500) ++ [e]).length := by
      simp [h500]
    rw [if_pos hgt, sliceLast_eq_drop _ _ (by norm_num)]
    have hone : (es.drop (es.length - 500) ++ [e]).length - 500 = 1 := by
      simp [h500]
    rw [hone, List.drop_append_of_le_length (by omega), List.drop_drop,
      List.drop_append_of_le_length (by omega)]
    have harith : es.length - 500 + 1 = es.length + 1 - 500 := by omega
    rw [harith]
  · have h0 : es.length - 500 = 0 := by omega
    rw [h0, List.drop_zero]
    by_cases h1 : 500 < (es ++ [e]).length
    · rw [if_pos h1, sliceLast_eq_drop _ _ (by norm_num)]
      have harith : (es ++ [e]).length - 500 = es.length + 1 - 500 := by
        simp
      rw [harith]
    · rw [if_neg h1]
      have hz : es.length + 1 - 500 = 0 := by
        simp only [List.length_append, List.length_cons, List.length_nil] at h1
        omega
      rw [hz, List.drop_zero]

/-- Replaying any sequence of appends through the capped-append update of
`main` retains exactly the last-500 suffix of the appended sequence. -/
theorem foldl_appendCapped (es : List HistoryEntry) :
    es.foldl appendCapped [] = es.drop (es.length - 500) := by
  induction es using List.reverseRecOn with
  | nil => rfl
  | append_singleton es e ih =>
    rw [List.foldl_append, List.foldl_cons, List.foldl_nil, ih, appendCapped_drop]
    have harith : es.length + 1 - 500 = (es ++ [e]).length - 500 := by
      simp
    rw [harith]

/-- C2: after any number of appends (starting from the empty history) the
history never exceeds 500 entries, and once more than 500 entries have been
appended the retained entries are exactly the most recent 500 in their
original insertion order. -/
theorem history_cap (es : List HistoryEntry) :
    (es.foldl appendCapped []).length ≤ 500 ∧
    (500 < es.length → es.foldl appendCapped [] = es.drop (es.length - 500)) := by
  rw [foldl_appendCapped]
  refine ⟨?_, fun _ => rfl⟩
  rw [List.length_drop]
  omega

/-- A fixed entry used to build concrete histories in witnesses. -/
def entry0 : HistoryEntry :=
  { timestamp := 0, combined := 0, straddle_a := 0, straddle_b := 0, spot := none }

theorem history_cap_witness :
    500 < (List.replicate 501 entry0).length ∧
    (List.replicate 501 entry0).foldl appendCapped [] =
      (List.replicate 501 entry0).drop ((List.replicate 501 entry0).length - 500) :=
  ⟨by rw [List.length_replicate]; norm_num,
   (history_cap (List.replicate 501 entry0)).2 (by rw [List.length_replicate]; norm_num)⟩

/-- C5: if any of the four required legs cannot be located, extraction
returns no result at all, and (at the configured strikes) the polling cycle
leaves the history exactly as it was. -/
theorem missing_leg_no_append (chain : List OptionQuote) (s1 s2 : ℚ)
    (history : List HistoryEntry) (ts : ℕ)
    (hmiss : get_option_price chain s1 "C" = none ∨
             get_option_price chain s1 "P" = none ∨
             get_option_price chain s2 "C" = none ∨
             get_option_price chain s2 "P" = none) :
    calculate_straddle_premiums chain s1 s2 = none ∧
    (s1 = STRIKE_1 → s2 = STRIKE_2 →
      mainCycle history chain ts = history ∧
      (mainCycle history chain ts).length = history.length) := by
  have hnone : calculate_straddle_premiums chain s1 s2 = none := by
    rcases hq1 : get_option_price chain s1 "C" with _ | c1 <;>
    rcases hq2 : get_option_price chain s1 "P" with _ | p1 <;>
    rcases hq3 : get_option_price chain s2 "C" with _ | c2 <;>
    rcases hq4 : get_option_price chain s2 "P" with _ | p2 <;>
      simp_all [calculate_straddle_premiums]
  refine ⟨hnone, fun e1 e2 => ?_⟩
  subst e1
  subst e2
  have hm : mainCycle history chain ts = history := by
    unfold mainCycle
    by_cases he : chain.isEmpty
    · rw [if_pos he]
    · rw [if_neg he, hnone]
  exact ⟨hm, by rw [hm]⟩

/-- A snapshot missing the put leg at the second strike. -/
def missingLegChain : List OptionQuote := sampleChain.take 3

theorem missing_leg_no_append_witness :
    calculate_straddle_premiums missingLegChain STRIKE_1 STRIKE_2 = none ∧
    mainCycle [entry0] missingLegChain 7 = [entry0] := by
  have hp3 : startswith "C-BTC-80000-101025" "P" = false := by decide
  have hm : get_option_price missingLegChain STRIKE_2 "P" = none := by
    norm_num [get_option_price, missingLegChain, sampleChain, List.find?,
      STRIKE_2, hp3]
  have h := missing_leg_no_append missingLegChain STRIKE_1 STRIKE_2 [entry0] 7
    (.inr (.inr (.inr hm)))
  exact ⟨h.1, (h.2 rfl rfl).1⟩

/-- C9: a quote that matches the requested strike and option-kind prefix but
lacks a `mark_price` field is reported at price `0` (the `.get('mark_price', 0)`
default), not as a missing leg. -/
theorem missing_mark_price_defaults_zero (q : OptionQuote)
    (rest : List OptionQuote) (strike : ℚ) (t : String)
    (hs : q.strike_price.getD 0 = strike) (hp : startswith q.symbol t = true)
    (hm : q.mark_price = none) :
    get_option_price (q :: rest) strike t = some 0 := by
  have hfind : List.find? (fun o =>
      decide (o.strike_price.getD 0 = strike) && startswith o.symbol t)
      (q :: rest) = some q :=
    List.find?_cons_of_pos _ (by simp [hs, hp])
  simp [get_option_price, hfind, hm]

/-- A four-leg snapshot in which no quote carries a `mark_price` field. -/
def noMarkChain : List OptionQuote :=
  [ { strike_price := some 75000, symbol := "C-BTC-75000-101025",
      mark_price := none, spot_price := none },
    { strike_price := some 75000, symbol := "P-BTC-75000-101025",
      mark_price := none, spot_price := none },
    { strike_price := some 80000, symbol := "C-BTC-80000-101025",
      mark_price := none, spot_price := none },
    { strike_price := some 80000, symbol := "P-BTC-80000-101025",
      mark_price := none, spot_price := none } ]

theorem missing_mark_price_defaults_zero_witness :
    get_option_price noMarkChain STRIKE_1 "C" = some 0 ∧
    calculate_straddle_premiums noMarkChain STRIKE_1 STRIKE_2 =
      some { straddle_a := 0, straddle_b := 0, combined := 0, spot := some 0,
             call_1 := 0, put_1 := 0, call_2 := 0, put_2 := 0 } := by
  constructor
  · have h := missing_mark_price_defaults_zero
      { strike_price := some 75000, symbol := "C-BTC-75000-101025",
        mark_price := none, spot_price := none }
      (noMarkChain.drop 1) STRIKE_1 "C"
      (by norm_num [STRIKE_1]) (by decide) rfl
    simpa [noMarkChain] using h
  · have hc1 : startswith "C-BTC-75000-101025" "C" = true := by decide
    have hp1 : startswith "C-BTC-75000-101025" "P" = false := by decide
    have hc2 : startswith "P-BTC-75000-101025" "P" = true := by decide
    have hc3 : startswith "C-BTC-80000-101025" "C" = true := by decide
    have hp3 : startswith "C-BTC-80000-101025" "P" = false := by decide
    have hc4 : startswith "P-BTC-80000-101025" "P" = true := by decide
    norm_num [calculate_straddle_premiums, get_option_price, get_spot_price,
      noMarkChain, STRIKE_1, STRIKE_2, List.find?, hc1, hp1, hc2, hc3, hp3, hc4]

/-- The session state holding `st.session_state.premium_history`. -/
structure SessionState where
  premium_history : List HistoryEntry

/-- State-passing reading of `determine_trend`: its Python body performs only
non-mutating reads of the history (`len`, slicing, a list comprehension,
`sum`), so the session state comes back unchanged. -/
def determine_trend_session (s : SessionState) (window : ℕ) :
    Except PyErr String × SessionState :=
  (determine_trend s.premium_history window, s)

/-- State-passing reading of `determine_risk_status`: its Python body performs
only non-mutating reads of the history (`len`, a list comprehension, `sum`,
`min`, `max`, indexing), so the session state comes back unchanged. -/
def determine_risk_status_session (s : SessionState) (current : ℚ) :
    Except PyErr (String × String × String) × SessionState :=
  (determine_risk_status s.premium_history current, s)

/-- C10: the trend and risk classifiers are pure readers — running either on
the session leaves the stored history with the same entries, order and
length. -/
theorem classifiers_pure_readers (s : SessionState) (window : ℕ) (current : ℚ) :
    (determine_trend_session s window).2 = s ∧
    (determine_risk_status_session s current).2 = s ∧
    (determine_trend_session s window).2.premium_history = s.premium_history ∧
    (determine_risk_status_session s current).2.premium_history.length =
      s.premium_history.length :=
  ⟨rfl, rfl, rfl, rfl⟩

/-- An entry with a given timestamp and combined premium (the classifiers
read only the `combined` field). -/
def entryC (t : ℕ) (c : ℚ) : HistoryEntry :=
  { timestamp := t, combined := c, straddle_a := 0, straddle_b := 0, spot := none }

/-- Spec §4.3: the last `window` entries' combined premiums. -/
def specRecent (history : List HistoryEntry) (window : ℕ) : List ℚ :=
  (history.map fun h => h.combined).drop (history.length - window)

/-- Spec §4.3: the first half — `floor(window/2)` elements. -/
def specFirstHalf (history : List HistoryEntry) (window : ℕ) : List ℚ :=
  (specRecent history window).take (window / 2)

/-- Spec §4.3: the second half — the remainder. -/
def specSecondHalf (history : List HistoryEntry) (window : ℕ) : List ℚ :=
  (specRecent history window).drop (window / 2)

/-- Spec §4.3: `change_pct = (avg(second_half) - avg(first_half)) /
avg(first_half) * 100`. -/
def specChangePct (history : List HistoryEntry) (window : ℕ) : ℚ :=
  ((specAvg (specSecondHalf history window) - specAvg (specFirstHalf history window)) /
    specAvg (specFirstHalf history window)) * 100

/-- Spec §4.4: the combined premiums of the full retained history. -/
def specPremiums (history : List HistoryEntry) : List ℚ :=
  history.map fun h => h.combined

/-- Spec §4.4: `premium[-10]`, the combined premium exactly 10 polls ago. -/
def specP10 (history : List HistoryEntry) : ℚ :=
  (specPremiums history).getD ((specPremiums history).length - 10) 0

/-- Spec §4.4: `volatility_pct = (max - min) / avg * 100` over the full
retained history. -/
def specVolatility (history : List HistoryEntry) : ℚ :=
  (((specPremiums history).max?.getD 0 - (specPremiums history).min?.getD 0) /
    specAvg (specPremiums history)) * 100

/-- Spec §4.4: `recent_change_pct = (current - premium[-10]) / premium[-10]
* 100`. -/
def specRecentChangePct (history : List HistoryEntry) (current : ℚ) : ℚ :=
  ((current - specP10 history) / specP10 history) * 100

/-- Python's `min` builtin agrees with `List.min?` on every list it accepts. -/
theorem pyMin_eq (l : List ℚ) : pyMin l = l.min?.getD 0 := by
  cases l <;> rfl

/-- Python's `max` builtin agrees with `List.max?` on every list it accepts. -/
theorem pyMax_eq (l : List ℚ) : pyMax l = l.max?.getD 0 := by
  cases l <;> rfl

/-- C8: with fewer than 10 history entries, the risk classifier returns
`Neutral` with rationale "Collecting initial data...". -/
theorem risk_insufficient_history (history : List HistoryEntry)
    (current : ℚ) (h : history.length < 10) :
    determine_risk_status history current =
      .ok ("Neutral", "⚪", "Collecting initial data...") := by
  simp [determine_risk_status, h]

theorem risk_insufficient_history_witness :
    determine_risk_status [] 42 =
      .ok ("Neutral", "⚪", "Collecting initial data...") :=
  risk_insufficient_history [] 42 (by simp)

/-- A five-entry history whose first-half combined premiums average to zero
under the default window. -/
def trendCrashHistory : List HistoryEntry :=
  [entryC 0 100, entryC 1 (-100), entryC 2 50, entryC 3 50, entryC 4 50]

/-- C3 counterexample: with the default window 5 on a history whose
first-half average is zero, `determine_trend` raises a division-by-zero
fault instead of returning a trend label; with window 1 it always raises
(the first half is empty).  So the claim's unconditional "returns
Rising/Falling/Flat" is false as stated. -/
theorem trend_crash_counterexample :
    determine_trend trendCrashHistory 5 = .error .zeroDivision ∧
    determine_trend [entryC 0 100] 1 = .error .zeroDivision ∧
    determine_trend trendCrashHistory 5 ≠ .ok "Flat ➡️" := by
  have h1 : determine_trend trendCrashHistory 5 = .error .zeroDivision := by
    norm_num [determine_trend, sliceLast, trendCrashHistory, entryC]
  have h2 : determine_trend [entryC 0 100] 1 = .error .zeroDivision := by
    norm_num [determine_trend, sliceLast, entryC]
  exact ⟨h1, h2, by rw [h1]; simp⟩

/-- Ten entries whose combined premiums are all zero: the full-history
average is zero. -/
def allZeroHistory : List HistoryEntry :=
  [entry0, entry0, entry0, entry0, entry0, entry0, entry0, entry0, entry0, entry0]

/-- C4 counterexample: on a 10-entry history with zero average premium the
risk classifier raises a division-by-zero fault instead of returning a
label, so the claim's unconditional "computes ... and returns" is false as
stated. -/
theorem risk_crash_counterexample :
    determine_risk_status allZeroHistory 5 = .error .zeroDivision ∧
    determine_risk_status allZeroHistory 5 ≠
      .ok ("Safe", "🟢", "Premium stable - Position behaving as expected") := by
  have h1 : determine_risk_status allZeroHistory 5 = .error .zeroDivision := by
    norm_num [determine_risk_status, allZeroHistory, entry0]
  exact ⟨h1, by rw [h1]; simp⟩

/-- Five entries with combined premium zero: the trend first-half average is
zero. -/
def zerosFive : List HistoryEntry :=
  [entry0, entry0, entry0, entry0, entry0]

/-- Ten entries whose oldest combined premium is zero: `premiums[-10]` is
zero while the average is not. -/
def p10ZeroHistory : List HistoryEntry :=
  [entryC 0 0, entryC 1 1, entryC 2 1, entryC 3 1, entryC 4 1,
   entryC 5 1, entryC 6 1, entryC 7 1, entryC 8 1, entryC 9 1]

/-- C6: at degenerate denominators the code does NOT fall back to the
conservative label — both classifiers propagate the division-by-zero fault
(`ZeroDivisionError`) instead of returning Flat / Neutral as the spec
requires. -/
theorem classifier_division_crash :
    determine_trend zerosFive 5 = .error .zeroDivision ∧
    determine_risk_status p10ZeroHistory 1 = .error .zeroDivision := by
  constructor
  · norm_num [determine_trend, sliceLast, zerosFive, entry0]
  · norm_num [determine_risk_status, p10ZeroHistory, entryC]

/-- C3 (amended): for a window of at least 2, the trend classifier returns
`Insufficient Data` below the window, and otherwise — provided the
first-half average is nonzero, since the code divides by it unguarded —
returns Rising / Falling / Flat by comparing the spec's
`change_pct = (avg(second_half) - avg(first_half)) / avg(first_half) * 100`
against the +1 / -1 thresholds. -/
theorem determine_trend_spec (history : List HistoryEntry) (window : ℕ)
    (hw : 2 ≤ window) :
    (history.length < window →
      determine_trend history window = .ok "Insufficient Data") ∧
    (window ≤ history.length → specAvg (specFirstHalf history window) ≠ 0 →
      determine_trend history window =
        .ok (if 1 < specChangePct history window then "Rising ⬆️"
             else if specChangePct history window < -1 then "Falling ⬇️"
             else "Flat ➡️")) := by
  constructor
  · intro h
    simp [determine_trend, h]
  · intro hlen hnz
    have hnl : ¬ history.length < window := not_lt.2 hlen
    have hrec : (sliceLast history window).map (fun h => h.combined) =
        specRecent history window := by
      rw [sliceLast_eq_drop _ _ (by omega), List.map_drop]
      rfl
    have hreclen : (specRecent history window).length = window := by
      simp only [specRecent, List.length_drop, List.length_map]
      omega
    have hhalf : ¬ (window / 2 = 0) := by omega
    have htake : (specFirstHalf history window).length = window / 2 := by
      simp only [specFirstHalf, List.length_take, hreclen]
      exact min_eq_left (Nat.div_le_self _ _)
    have hdrop : (specSecondHalf history window).length = window - window / 2 := by
      simp only [specSecondHalf, List.length_drop, hreclen]
    have hfh : ((specRecent history window).take (window / 2)).sum /
        ((window / 2 : ℕ) : ℚ) = specAvg (specFirstHalf history window) := by
      simp only [specAvg]
      rw [htake]
      rfl
    have hsh : ((specRecent history window).drop (window / 2)).sum /
        ((window - window / 2 : ℕ) : ℚ) = specAvg (specSecondHalf history window) := by
      simp only [specAvg]
      rw [hdrop]
      rfl
    simp only [determine_trend, if_neg hnl, hrec, hreclen, if_neg hhalf]
    rw [hfh, hsh, if_neg hnz]
    simp only [specChangePct]
    split_ifs <;> rfl

/-- The spec's worked trend example: combined premiums 100, 100, 100, 90, 80. -/
def fallingExample : List HistoryEntry :=
  [entryC 0 100, entryC 1 100, entryC 2 100, entryC 3 90, entryC 4 80]

theorem determine_trend_spec_witness :
    2 ≤ 5 ∧ 5 ≤ fallingExample.length ∧
    specAvg (specFirstHalf fallingExample 5) ≠ 0 ∧
    determine_trend fallingExample 5 = .ok "Falling ⬇️" := by
  have hnz : specAvg (specFirstHalf fallingExample 5) ≠ 0 := by
    norm_num [specAvg, specFirstHalf, specRecent, fallingExample, entryC]
  have h := (determine_trend_spec fallingExample 5 (by norm_num)).2
    (by norm_num [fallingExample]) hnz
  refine ⟨by norm_num, by norm_num [fallingExample], hnz, ?_⟩
  rw [h]
  norm_num [specChangePct, specAvg, specFirstHalf, specSecondHalf, specRecent,
    fallingExample, entryC]

/-- C4 (amended): with at least 10 entries — and provided the full-history
average and the premium exactly 10 polls ago are nonzero, since the code
divides by both unguarded — the risk classifier compares the spec's
`recent_change_pct` and `volatility_pct` against the -5 / +10 / 15 / +5
thresholds in exactly that precedence order. -/
theorem determine_risk_spec (history : List HistoryEntry) (current : ℚ)
    (hlen : 10 ≤ history.length)
    (havg : specAvg (specPremiums history) ≠ 0)
    (hp10 : specP10 history ≠ 0) :
    determine_risk_status history current =
      .ok (if specRecentChangePct history current < -5 then
             ("Safe", "🟢", "Premium compressing - Theta decay working well")
           else if 10 < specRecentChangePct history current then
             ("Risky", "🔴", "Premium expanding - Volatility risk increasing")
           else if 15 < specVolatility history then
             ("Risky", "🔴", "High premium volatility detected")
           else if 5 < specRecentChangePct history current then
             ("Neutral", "🟡", "Slight premium expansion - Monitor closely")
           else ("Safe", "🟢", "Premium stable - Position behaving as expected")) := by
  have hnl : ¬ history.length < 10 := not_lt.2 hlen
  simp only [specAvg, specPremiums] at havg
  simp only [specP10, specPremiums] at hp10
  simp only [determine_risk_status, if_neg hnl, if_neg havg, if_neg hp10]
  simp only [pyMin_eq, pyMax_eq]
  simp only [specVolatility, specRecentChangePct, specP10, specAvg, specPremiums]
  split_ifs <;> rfl

/-- The spec's worked risk example: ten identical premiums of 100 and a
current value of 112. -/
def flatHundredHistory : List HistoryEntry :=
  [entryC 0 100, entryC 1 100, entryC 2 100, entryC 3 100, entryC 4 100,
   entryC 5 100, entryC 6 100, entryC 7 100, entryC 8 100, entryC 9 100]

theorem determine_risk_spec_witness :
    10 ≤ flatHundredHistory.length ∧
    determine_risk_status flatHundredHistory 112 =
      .ok ("Risky", "🔴", "Premium expanding - Volatility risk increasing") := by
  have havg : specAvg (specPremiums flatHundredHistory) ≠ 0 := by
    norm_num [specAvg, specPremiums, flatHundredHistory, entryC]
  have hp10 : specP10 flatHundredHistory ≠ 0 := by
    norm_num [specP10, specPremiums, flatHundredHistory, entryC]
  have h := determine_risk_spec flatHundredHistory 112
    (by norm_num [flatHundredHistory]) havg hp10
  refine ⟨by norm_num [flatHundredHistory], ?_⟩
  rw [h]
  norm_num [specRecentChangePct, specVolatility, specP10, specAvg, specPremiums,
    flatHundredHistory, entryC]

/-- A synthetic four-leg snapshot whose combined premium is `c` (each leg
quoted at `c/4`). -/
def c7chain (c : ℚ) : List OptionQuote :=
  [ { strike_price := some 75000, symbol := "C-BTC-75000-101025",
      mark_price := some (c / 4), spot_price := some 50000 },
    { strike_price := some 75000, symbol := "P-BTC-75000-101025",
      mark_price := some (c / 4), spot_price := some 50000 },
    { strike_price := some 80000, symbol := "C-BTC-80000-101025",
      mark_price := some (c / 4), spot_price := some 50000 },
    { strike_price := some 80000, symbol := "P-BTC-80000-101025",
      mark_price := some (c / 4), spot_price := some 50000 } ]

/-- Below the cap, a polling cycle on a synthetic snapshot appends exactly
one entry carrying its combined premium. -/
theorem mainCycle_c7chain (history : List HistoryEntry) (c : ℚ) (ts : ℕ)
    (hlen : history.length < 500) :
    mainCycle history (c7chain c) ts =
      history ++ [{ timestamp := ts, combined := c / 4 + c / 4 + (c / 4 + c / 4),
                    straddle_a := c / 4 + c / 4, straddle_b := c / 4 + c / 4,
                    spot := some 50000 }] := by
  have hc1 : startswith "C-BTC-75000-101025" "C" = true := by decide
  have hp1 : startswith "C-BTC-75000-101025" "P" = false := by decide
  have hc2 : startswith "P-BTC-75000-101025" "P" = true := by decide
  have hc3 : startswith "C-BTC-80000-101025" "C" = true := by decide
  have hp3 : startswith "C-BTC-80000-101025" "P" = false := by decide
  have hc4 : startswith "P-BTC-80000-101025" "P" = true := by decide
  have hcalc : calculate_straddle_premiums (c7chain c) STRIKE_1 STRIKE_2 =
      some { straddle_a := c / 4 + c / 4, straddle_b := c / 4 + c / 4,
             combined := c / 4 + c / 4 + (c / 4 + c / 4), spot := some 50000,
             call_1 := c / 4, put_1 := c / 4, call_2 := c / 4, put_2 := c / 4 } := by
    norm_num [calculate_straddle_premiums, get_option_price, get_spot_price,
      c7chain, STRIKE_1, STRIKE_2, List.find?, hc1, hp1, hc2, hc3, hp3, hc4]
  have hnotfull : ¬ 500 < history.length + 1 := by omega
  have hne : (c7chain c).isEmpty = false := rfl
  simp only [mainCycle, hne, Bool.false_eq_true, if_false, hcalc]
  simp only [appendCapped, List.length_append, List.length_cons, List.length_nil,
    Nat.zero_add, if_neg hnotfull]

/-- The i-th combined premium of the end-to-end scenario: linearly
decreasing from 100 (i = 0) to 70 (i = 14). -/
def c7combined (i : ℕ) : ℚ := 100 - (30 / 14) * i

/-- The history produced by feeding the 15 synthetic snapshots through the
polling cycle, oldest first. -/
def c7history : List HistoryEntry :=
  (List.range 15).foldl (fun h i => mainCycle h (c7chain (c7combined i)) i) []

/-- The entry the i-th cycle of the scenario appends. -/
def c7entry (i : ℕ) : HistoryEntry :=
  { timestamp := i
    combined := c7combined i / 4 + c7combined i / 4 + (c7combined i / 4 + c7combined i / 4)
    straddle_a := c7combined i / 4 + c7combined i / 4
    straddle_b := c7combined i / 4 + c7combined i / 4
    spot := some 50000 }

set_option maxHeartbeats 2000000 in
/-- C7: after 15 polling cycles whose combined premiums fall strictly and
linearly from 100 to 70, the trend classifier reports Falling and the risk
classifier reports Safe (premium compressing). -/
theorem end_to_end_falling_safe :
    determine_trend c7history 5 = .ok "Falling ⬇️" ∧
    determine_risk_status c7history (c7combined 14) =
      .ok ("Safe", "🟢", "Premium compressing - Theta decay working well") := by
  have hrange : List.range 15 = [0, 1, 2, 3, 4, 5, 6, 7, 8, 9, 10, 11, 12, 13, 14] := by
    rfl
  have hhist : c7history =
      [c7entry 0, c7entry 1, c7entry 2, c7entry 3, c7entry 4, c7entry 5,
       c7entry 6, c7entry 7, c7entry 8, c7entry 9, c7entry 10, c7entry 11,
       c7entry 12, c7entry 13, c7entry 14] := by
    rw [c7history, hrange]
    simp [mainCycle_c7chain, c7entry]
  constructor
  · rw [hhist]
    norm_num [determine_trend, sliceLast, c7entry, c7combined]
  · rw [hhist]
    norm_num [determine_risk_status, c7entry, c7combined]
